import Mathlib

/-!
Verification of the TeamLottery headless draw simulator and optimizer
(source: simulate.mjs / optimizer script).

The physics engine (matter-js) is external: the simulator only observes it
through the per-step `collisionStart` pair lists and drives it through
`Engine.update`.  We therefore embed a draw as a deterministic fold over an
oracle *trace* `ℕ → List CollisionPair` giving, for every executed physics
step, the list of newly-touching body pairs the engine reports at that step.
Body handles are represented by their labels: the handler code only ever
reads `body.label`.  The string labels `ball-<i>`, `wall`, `gate` and
`exit-sensor` of the source are embedded as the inductive type `Label`;
`Label.isBall` embeds `label.startsWith('ball-')`, `Label.isSensor` embeds
`label === 'exit-sensor'`, and `Label.ballIndex` embeds
`parseInt(label.split('-')[1])` on ball labels (the only labels on which the
source evaluates it).

JavaScript numbers are embedded as exact rationals (`ℚ`); the quantities
that the source can set to `Infinity` are embedded as `WithTop ℚ`; the score,
which involves `Math.log`, lives in `ℝ`.
-/

namespace TeamLottery

/-- The flat parameter record of the simulator (source `DEFAULT_PARAMS` keys).
`numBalls` is used as an array length and loop bound, hence `ℕ`. -/
structure Params where
  gravityY : ℚ
  gravityScale : ℚ
  numBalls : ℕ
  ballRadius : ℚ
  ballRestitution : ℚ
  ballFriction : ℚ
  ballFrictionAir : ℚ
  ballDensity : ℚ
  wallFriction : ℚ
  wallRestitution : ℚ
  windForceX : ℚ
  windForceY : ℚ
  windMaxDistScale : ℚ
  windSourceAngle : ℚ
  windOscFreq : ℚ
  windOscAmp : ℚ
  chaosX : ℚ
  chaosY : ℚ
  angularNudgeMag : ℚ
  angularNudgeChance : ℚ
  mixTime : ℚ
deriving DecidableEq

/-- Source `DEFAULT_PARAMS` (simulate.mjs lines 21-50). -/
def DEFAULT_PARAMS : Params where
  gravityY := 1.74
  gravityScale := 0.0045
  numBalls := 8
  ballRadius := 37
  ballRestitution := 0.84
  ballFriction := 0.11
  ballFrictionAir := 0.041
  ballDensity := 0.0008
  wallFriction := 0.42
  wallRestitution := 0.84
  windForceX := 0.014
  windForceY := 0.006
  windMaxDistScale := 0.36
  windSourceAngle := 0.6
  windOscFreq := 0.0
  windOscAmp := 0.0
  chaosX := 0.006
  chaosY := 0.004
  angularNudgeMag := 0.64
  angularNudgeChance := 0.33
  mixTime := 5000

/-- Body labels occurring in the simulated world: `ball-<i>`, `wall`,
`gate`, `exit-sensor`. -/
inductive Label where
  | ball (i : ℕ)
  | wall
  | gate
  | exitSensor
deriving DecidableEq

/-- Embeds `label.startsWith('ball-')`: among the labels the simulator ever
creates, exactly the ball labels start with `ball-`. -/
def Label.isBall : Label → Bool
  | .ball _ => true
  | _ => false

/-- Embeds `label === 'exit-sensor'`. -/
def Label.isSensor : Label → Bool
  | .exitSensor => true
  | _ => false

/-- Embeds `parseInt(label.split('-')[1])`, which the source evaluates only
on labels of the form `ball-<i>` (the winner is only ever assigned from a
label passing `startsWith('ball-')`). -/
def Label.ballIndex : Label → ℤ
  | .ball i => (i : ℤ)
  | _ => 0

/-- One element of `event.pairs` in a `collisionStart` event; the handler
reads nothing but the two labels. -/
structure CollisionPair where
  bodyA : Label
  bodyB : Label
deriving DecidableEq

/-- The mutable tracking state captured by the `collisionStart` handler
(source lines 146-148): `ballBallCollisions`, `ballWallCollisions`,
`winner`. -/
structure TrackState where
  ballBall : ℕ
  ballWall : ℕ
  winner : Option Label
deriving DecidableEq

def initTrack : TrackState := ⟨0, 0, none⟩

/-- The classification tail of the handler (source lines 161-164):
`aIsBall && bIsBall` increments ball-ball, else `aIsBall || bIsBall`
increments ball-wall. -/
def classifyPair (s : TrackState) (pr : CollisionPair) : TrackState :=
  if pr.bodyA.isBall && pr.bodyB.isBall then { s with ballBall := s.ballBall + 1 }
  else if pr.bodyA.isBall || pr.bodyB.isBall then { s with ballWall := s.ballWall + 1 }
  else s

/-- The body of the `collisionStart` handler for one pair (source lines
151-165).  While no winner is recorded, a pair containing the sensor is
consumed by the winner-detection branch (`continue`), recording the
non-sensor side as winner when its label is a ball label; every pair that
reaches the classification tail is counted there. -/
def processPair (s : TrackState) (pr : CollisionPair) : TrackState :=
  if s.winner = none then
    if pr.bodyA.isSensor then
      -- sensorBody = bodyA, ballBody = bodyB, then `continue`
      if pr.bodyB.isBall then { s with winner := some pr.bodyB } else s
    else if pr.bodyB.isSensor then
      -- sensorBody = bodyB, ballBody = bodyA, then `continue`
      if pr.bodyA.isBall then { s with winner := some pr.bodyA } else s
    else
      classifyPair s pr
  else
    classifyPair s pr

/-- One `collisionStart` event: the handler's `for (const pair of
event.pairs)` loop. -/
def collisionEvent (s : TrackState) (pairs : List CollisionPair) : TrackState :=
  pairs.foldl processPair s

/-- Several consecutive `collisionStart` events. -/
def processAll (s : TrackState) (events : List (List CollisionPair)) : TrackState :=
  events.foldl collisionEvent s

/-- Fixed timestep `DT = 1000 / 60` ms (source line 170). -/
def DT : ℚ := 1000 / 60

/-- Result of one of the two stepping loops. -/
structure LoopOut where
  state : TrackState
  nextStep : ℕ
  executed : ℕ
deriving DecidableEq

/-- One stepping loop `for (let i = 0; i < fuel && !winner; i++)
{ Engine.update(engine, DT) }` (source lines 213-215 and 222-225): at each
executed step the engine delivers the collision event `trace k` of the
current global step index `k`.  Returns the final tracker state, the next
global step index and the number of executed steps. -/
def runLoop (trace : ℕ → List CollisionPair) :
    ℕ → ℕ → TrackState → LoopOut
  | 0, k, s => ⟨s, k, 0⟩
  | n + 1, k, s =>
    if s.winner.isSome then ⟨s, k, 0⟩
    else
      let out := runLoop trace n (k + 1) (collisionEvent s (trace k))
      ⟨out.state, out.nextStep, out.executed + 1⟩

/-- `mixSteps = Math.round(p.mixTime / DT)` (source line 209), as the number
of iterations the mixing `for` loop can execute (a non-positive bound yields
zero iterations). -/
def mixStepsOf (p : Params) : ℕ := (round (p.mixTime / DT)).toNat

/-- `postGateMaxSteps = Math.round(15000 / DT)` (source line 210). -/
def postGateMaxSteps : ℕ := (round ((15000 : ℚ) / DT)).toNat

/-- The two stepping loops of a draw: mixing (gate closed), then selection
(gate removed — a physics-only change, reflected in the oracle trace).
Source lines 213-225. -/
def runDrawLoops (p : Params) (trace : ℕ → List CollisionPair) :
    LoopOut × LoopOut :=
  let mix := runLoop trace (mixStepsOf p) 0 initTrack
  let sel := runLoop trace postGateMaxSteps mix.nextStep mix.state
  (mix, sel)

/-- The record returned by `runSimulation` (source lines 232-241). -/
structure SimResult where
  winner : Option Label
  winnerIndex : ℤ
  totalCollisions : ℕ
  ballBallCollisions : ℕ
  ballWallCollisions : ℕ
  selectionTimeMs : ℚ
  params : Params
deriving DecidableEq

/-- A full draw for a complete parameter record `p` (the body of
`runSimulation` after the defaults merge, source lines 61-241), driven by
the collision trace. -/
def runDraw (p : Params) (trace : ℕ → List CollisionPair) : SimResult :=
  let loops := runDrawLoops p trace
  let st := loops.2.state
  { winner := st.winner
    winnerIndex := match st.winner with
      | some l => l.ballIndex       -- winner ? parseInt(winner.split('-')[1])
      | none => -1                  -- : -1
    totalCollisions := st.ballBall + st.ballWall
    ballBallCollisions := st.ballBall
    ballWallCollisions := st.ballWall
    selectionTimeMs := (loops.2.executed : ℚ) * DT
    params := p }

/-- Overrides passed to `runSimulation(params)`: a partial record; `none`
embeds an absent key. -/
structure Overrides where
  gravityY : Option ℚ := none
  gravityScale : Option ℚ := none
  numBalls : Option ℕ := none
  ballRadius : Option ℚ := none
  ballRestitution : Option ℚ := none
  ballFriction : Option ℚ := none
  ballFrictionAir : Option ℚ := none
  ballDensity : Option ℚ := none
  wallFriction : Option ℚ := none
  wallRestitution : Option ℚ := none
  windForceX : Option ℚ := none
  windForceY : Option ℚ := none
  windMaxDistScale : Option ℚ := none
  windSourceAngle : Option ℚ := none
  windOscFreq : Option ℚ := none
  windOscAmp : Option ℚ := none
  chaosX : Option ℚ := none
  chaosY : Option ℚ := none
  angularNudgeMag : Option ℚ := none
  angularNudgeChance : Option ℚ := none
  mixTime : Option ℚ := none
deriving DecidableEq

/-- `const p = { ...DEFAULT_PARAMS, ...params }` (source line 59): a key
present in the override wins, an absent key inherits the default. -/
def mergeParams (o : Overrides) : Params where
  gravityY := o.gravityY.getD DEFAULT_PARAMS.gravityY
  gravityScale := o.gravityScale.getD DEFAULT_PARAMS.gravityScale
  numBalls := o.numBalls.getD DEFAULT_PARAMS.numBalls
  ballRadius := o.ballRadius.getD DEFAULT_PARAMS.ballRadius
  ballRestitution := o.ballRestitution.getD DEFAULT_PARAMS.ballRestitution
  ballFriction := o.ballFriction.getD DEFAULT_PARAMS.ballFriction
  ballFrictionAir := o.ballFrictionAir.getD DEFAULT_PARAMS.ballFrictionAir
  ballDensity := o.ballDensity.getD DEFAULT_PARAMS.ballDensity
  wallFriction := o.wallFriction.getD DEFAULT_PARAMS.wallFriction
  wallRestitution := o.wallRestitution.getD DEFAULT_PARAMS.wallRestitution
  windForceX := o.windForceX.getD DEFAULT_PARAMS.windForceX
  windForceY := o.windForceY.getD DEFAULT_PARAMS.windForceY
  windMaxDistScale := o.windMaxDistScale.getD DEFAULT_PARAMS.windMaxDistScale
  windSourceAngle := o.windSourceAngle.getD DEFAULT_PARAMS.windSourceAngle
  windOscFreq := o.windOscFreq.getD DEFAULT_PARAMS.windOscFreq
  windOscAmp := o.windOscAmp.getD DEFAULT_PARAMS.windOscAmp
  chaosX := o.chaosX.getD DEFAULT_PARAMS.chaosX
  chaosY := o.chaosY.getD DEFAULT_PARAMS.chaosY
  angularNudgeMag := o.angularNudgeMag.getD DEFAULT_PARAMS.angularNudgeMag
  angularNudgeChance := o.angularNudgeChance.getD DEFAULT_PARAMS.angularNudgeChance
  mixTime := o.mixTime.getD DEFAULT_PARAMS.mixTime

/-- `runSimulation(params = DEFAULT_PARAMS)` (source line 58): merge the
overrides into the defaults and run the draw. -/
def runSimulation (o : Overrides) (trace : ℕ → List CollisionPair) : SimResult :=
  runDraw (mergeParams o) trace

/-- A label is one the world of a draw with parameters `p` can carry: ball
indices below `numBalls`, or one of the static-body labels. -/
def validLabel (p : Params) : Label → Prop
  | .ball i => i < p.numBalls
  | _ => True

instance (p : Params) (l : Label) : Decidable (validLabel p l) := by
  cases l <;> (unfold validLabel) <;> infer_instance

def validPair (p : Params) (pr : CollisionPair) : Prop :=
  validLabel p pr.bodyA ∧ validLabel p pr.bodyB

/-- A collision trace only mentions bodies of the world built for `p`. -/
def validTrace (p : Params) (trace : ℕ → List CollisionPair) : Prop :=
  ∀ k, ∀ pr ∈ trace k, validPair p pr

/-- Spec-side recursion (section 4.3 of the spec): the non-sensor side of
the first pair that involves the exit sensor and whose other side is
ball-labeled. -/
def firstSensorWin : List CollisionPair → Option Label
  | [] => none
  | pr :: rest =>
    if pr.bodyA.isSensor && pr.bodyB.isBall then some pr.bodyB
    else if pr.bodyB.isSensor && pr.bodyA.isBall then some pr.bodyA
    else firstSensorWin rest

/-! ### Lemmas about the collision handler -/

theorem Label.isBall_exists {l : Label} (h : l.isBall = true) : ∃ i, l = .ball i := by
  cases l <;> simp_all [Label.isBall]

theorem Label.isSensor_not_ball {l : Label} (h : l.isSensor = true) :
    l.isBall = false := by
  cases l <;> simp_all [Label.isSensor, Label.isBall]

theorem classifyPair_winner (s : TrackState) (pr : CollisionPair) :
    (classifyPair s pr).winner = s.winner := by
  unfold classifyPair
  split
  · rfl
  · split <;> rfl

theorem processPair_some (s : TrackState) (pr : CollisionPair) (w : Label)
    (h : s.winner = some w) : processPair s pr = classifyPair s pr := by
  unfold processPair
  rw [h]
  simp

theorem processPair_none_winA (s : TrackState) (pr : CollisionPair)
    (h : s.winner = none) (hA : pr.bodyA.isSensor = true)
    (hB : pr.bodyB.isBall = true) :
    processPair s pr = { s with winner := some pr.bodyB } := by
  unfold processPair
  rw [h]
  simp [hA, hB]

theorem processPair_none_skipA (s : TrackState) (pr : CollisionPair)
    (h : s.winner = none) (hA : pr.bodyA.isSensor = true)
    (hB : pr.bodyB.isBall = false) :
    processPair s pr = s := by
  unfold processPair
  rw [h]
  simp [hA, hB]

theorem processPair_none_winB (s : TrackState) (pr : CollisionPair)
    (h : s.winner = none) (hA : pr.bodyA.isSensor = false)
    (hBs : pr.bodyB.isSensor = true) (hAb : pr.bodyA.isBall = true) :
    processPair s pr = { s with winner := some pr.bodyA } := by
  unfold processPair
  rw [h]
  simp [hA, hBs, hAb]

theorem processPair_none_skipB (s : TrackState) (pr : CollisionPair)
    (h : s.winner = none) (hA : pr.bodyA.isSensor = false)
    (hBs : pr.bodyB.isSensor = true) (hAb : pr.bodyA.isBall = false) :
    processPair s pr = s := by
  unfold processPair
  rw [h]
  simp [hA, hBs, hAb]

theorem processPair_none_classify (s : TrackState) (pr : CollisionPair)
    (h : s.winner = none) (hA : pr.bodyA.isSensor = false)
    (hBs : pr.bodyB.isSensor = false) :
    processPair s pr = classifyPair s pr := by
  unfold processPair
  rw [h]
  simp [hA, hBs]

theorem processPair_winner_some (s : TrackState) (pr : CollisionPair) (w : Label)
    (h : s.winner = some w) : (processPair s pr).winner = some w := by
  rw [processPair_some s pr w h, classifyPair_winner, h]

theorem collisionEvent_winner_some (pairs : List CollisionPair) (s : TrackState)
    (w : Label) (h : s.winner = some w) :
    (collisionEvent s pairs).winner = some w := by
  induction pairs generalizing s with
  | nil => exact h
  | cons pr rest ih =>
    exact ih (processPair s pr) (processPair_winner_some s pr w h)

theorem collisionEvent_winner_none (pairs : List CollisionPair) (s : TrackState)
    (h : s.winner = none) :
    (collisionEvent s pairs).winner = firstSensorWin pairs := by
  induction pairs generalizing s with
  | nil => exact h
  | cons pr rest ih =>
    show (collisionEvent (processPair s pr) rest).winner = _
    cases hA : pr.bodyA.isSensor with
    | true =>
      cases hB : pr.bodyB.isBall with
      | true =>
        rw [processPair_none_winA s pr h hA hB,
          collisionEvent_winner_some rest _ pr.bodyB rfl]
        simp [firstSensorWin, hA, hB]
      | false =>
        rw [processPair_none_skipA s pr h hA hB, ih s h]
        simp [firstSensorWin, hA, hB, Label.isSensor_not_ball hA]
    | false =>
      cases hBs : pr.bodyB.isSensor with
      | true =>
        cases hAb : pr.bodyA.isBall with
        | true =>
          rw [processPair_none_winB s pr h hA hBs hAb,
            collisionEvent_winner_some rest _ pr.bodyA rfl]
          simp [firstSensorWin, hA, hBs, hAb, Label.isSensor_not_ball hBs]
        | false =>
          rw [processPair_none_skipB s pr h hA hBs hAb, ih s h]
          simp [firstSensorWin, hA, hBs, hAb, Label.isSensor_not_ball hBs]
      | false =>
        rw [processPair_none_classify s pr h hA hBs,
          ih _ (by rw [classifyPair_winner]; exact h)]
        simp [firstSensorWin, hA, hBs]

theorem firstSensorWin_append_some (l1 l2 : List CollisionPair) (x : Label)
    (h : firstSensorWin l1 = some x) :
    firstSensorWin (l1 ++ l2) = some x := by
  induction l1 with
  | nil => exact absurd h (by simp [firstSensorWin])
  | cons pr rest ih =>
    rw [List.cons_append]
    rw [firstSensorWin] at h ⊢
    split at h
    · rw [if_pos (by assumption)]
      exact h
    · split at h
      · rw [if_neg (by assumption), if_pos (by assumption)]
        exact h
      · rw [if_neg (by assumption), if_neg (by assumption)]
        exact ih h

theorem firstSensorWin_append_none (l1 l2 : List CollisionPair)
    (h : firstSensorWin l1 = none) :
    firstSensorWin (l1 ++ l2) = firstSensorWin l2 := by
  induction l1 with
  | nil => rfl
  | cons pr rest ih =>
    rw [List.cons_append]
    rw [firstSensorWin] at h ⊢
    split at h
    · exact absurd h (by simp)
    · split at h
      · exact absurd h (by simp)
      · rw [if_neg (by assumption), if_neg (by assumption)]
        exact ih h

theorem processAll_winner_some (events : List (List CollisionPair)) (s : TrackState)
    (w : Label) (h : s.winner = some w) :
    (processAll s events).winner = some w := by
  induction events generalizing s with
  | nil => exact h
  | cons ev rest ih =>
    exact ih (collisionEvent s ev) (collisionEvent_winner_some ev s w h)

theorem processAll_winner_none (events : List (List CollisionPair)) (s : TrackState)
    (h : s.winner = none) :
    (processAll s events).winner = firstSensorWin events.flatten := by
  induction events generalizing s with
  | nil => exact h
  | cons ev rest ih =>
    show (processAll (collisionEvent s ev) rest).winner = firstSensorWin (ev ++ rest.flatten)
    have hev := collisionEvent_winner_none ev s h
    cases hfs : firstSensorWin ev with
    | none =>
      rw [hfs] at hev
      rw [ih _ hev, firstSensorWin_append_none ev _ hfs]
    | some l =>
      rw [hfs] at hev
      rw [processAll_winner_some rest _ l hev, firstSensorWin_append_some ev _ l hfs]

/-! ### Lemmas about the stepping loops -/

theorem runLoop_executed_le (trace : ℕ → List CollisionPair) (n k : ℕ)
    (s : TrackState) : (runLoop trace n k s).executed ≤ n := by
  induction n generalizing k s with
  | zero => exact Nat.le_refl 0
  | succ m ih =>
    unfold runLoop
    split
    · exact Nat.zero_le _
    · exact Nat.succ_le_succ (ih (k + 1) _)

/-- The invariant that the recorded winner, if any, is a ball of the world. -/
def winnerOk (p : Params) (s : TrackState) : Prop :=
  s.winner = none ∨ ∃ i, i < p.numBalls ∧ s.winner = some (.ball i)

theorem processPair_winnerOk (p : Params) (s : TrackState) (pr : CollisionPair)
    (hv : validPair p pr) (h : winnerOk p s) : winnerOk p (processPair s pr) := by
  obtain ⟨hvA, hvB⟩ := hv
  rcases h with h | ⟨i, hi, h⟩
  · cases hA : pr.bodyA.isSensor with
    | true =>
      cases hB : pr.bodyB.isBall with
      | true =>
        rw [processPair_none_winA s pr h hA hB]
        obtain ⟨j, hj⟩ := Label.isBall_exists hB
        rw [hj] at hvB
        exact Or.inr ⟨j, hvB, by rw [hj]⟩
      | false =>
        rw [processPair_none_skipA s pr h hA hB]
        exact Or.inl h
    | false =>
      cases hBs : pr.bodyB.isSensor with
      | true =>
        cases hAb : pr.bodyA.isBall with
        | true =>
          rw [processPair_none_winB s pr h hA hBs hAb]
          obtain ⟨j, hj⟩ := Label.isBall_exists hAb
          rw [hj] at hvA
          exact Or.inr ⟨j, hvA, by rw [hj]⟩
        | false =>
          rw [processPair_none_skipB s pr h hA hBs hAb]
          exact Or.inl h
      | false =>
        rw [processPair_none_classify s pr h hA hBs]
        exact Or.inl (by rw [classifyPair_winner]; exact h)
  · exact Or.inr ⟨i, hi, processPair_winner_some s pr _ h⟩

theorem collisionEvent_winnerOk (p : Params) (pairs : List CollisionPair)
    (s : TrackState) (hv : ∀ pr ∈ pairs, validPair p pr) (h : winnerOk p s) :
    winnerOk p (collisionEvent s pairs) := by
  induction pairs generalizing s with
  | nil => exact h
  | cons pr rest ih =>
    exact ih (processPair s pr)
      (fun q hq => hv q (List.mem_cons_of_mem pr hq))
      (processPair_winnerOk p s pr (hv pr (List.mem_cons_self pr rest)) h)

theorem runLoop_winnerOk (p : Params) (trace : ℕ → List CollisionPair)
    (hv : validTrace p trace) (n k : ℕ) (s : TrackState) (h : winnerOk p s) :
    winnerOk p (runLoop trace n k s).state := by
  induction n generalizing k s with
  | zero => exact h
  | succ m ih =>
    unfold runLoop
    split
    · exact h
    · exact ih (k + 1) _ (collisionEvent_winnerOk p (trace k) s (hv k) h)

theorem runDraw_winnerOk (p : Params) (trace : ℕ → List CollisionPair)
    (hv : validTrace p trace) : winnerOk p (runDrawLoops p trace).2.state := by
  unfold runDrawLoops
  exact runLoop_winnerOk p trace hv _ _ _
    (runLoop_winnerOk p trace hv _ _ _ (Or.inl rfl))

theorem runDraw_winner (p : Params) (trace : ℕ → List CollisionPair) :
    (runDraw p trace).winner = (runDrawLoops p trace).2.state.winner := rfl

theorem runDraw_ballWall (p : Params) (trace : ℕ → List CollisionPair) :
    (runDraw p trace).ballWallCollisions = (runDrawLoops p trace).2.state.ballWall := rfl

/-- The trace of an engine reporting no collisions at all. -/
def emptyTrace : ℕ → List CollisionPair := fun _ => []

theorem runLoop_emptyTrace_none (n k : ℕ) (s : TrackState) (h : s.winner = none) :
    runLoop emptyTrace n k s = ⟨s, k + n, n⟩ := by
  induction n generalizing k with
  | zero => rfl
  | succ m ih =>
    unfold runLoop
    rw [if_neg (by rw [h]; simp)]
    have hce : collisionEvent s (emptyTrace k) = s := rfl
    rw [hce, ih (k + 1)]
    have hk : k + 1 + m = k + (m + 1) := by omega
    rw [hk]

theorem runDraw_emptyTrace (p : Params) :
    runDraw p emptyTrace =
      { winner := none
        winnerIndex := -1
        totalCollisions := 0
        ballBallCollisions := 0
        ballWallCollisions := 0
        selectionTimeMs := (postGateMaxSteps : ℚ) * DT
        params := p } := by
  unfold runDraw runDrawLoops
  dsimp only
  rw [runLoop_emptyTrace_none (mixStepsOf p) 0 initTrack rfl]
  dsimp only
  rw [runLoop_emptyTrace_none postGateMaxSteps (0 + mixStepsOf p) initTrack rfl]
  rfl

/-- `mixSteps` for the default parameters: `round(5000 / (1000/60)) = 300`. -/
theorem mixStepsOf_default : mixStepsOf DEFAULT_PARAMS = 300 := by
  unfold mixStepsOf DEFAULT_PARAMS DT
  norm_num
  decide

/-- `postGateMaxSteps = round(15000 / (1000/60)) = 900`. -/
theorem postGateMaxSteps_eq : postGateMaxSteps = 900 := by
  unfold postGateMaxSteps DT
  norm_num
  decide

theorem round_post_eq : round ((15000 : ℚ) / DT) = 900 := by
  unfold DT
  norm_num

theorem runDraw_winnerIndex (p : Params) (trace : ℕ → List CollisionPair) :
    (runDraw p trace).winnerIndex =
      (match (runDrawLoops p trace).2.state.winner with
        | some l => l.ballIndex
        | none => -1) := rfl

theorem runDrawLoops_fst (p : Params) (trace : ℕ → List CollisionPair) :
    (runDrawLoops p trace).1 = runLoop trace (mixStepsOf p) 0 initTrack := rfl

theorem runDrawLoops_snd (p : Params) (trace : ℕ → List CollisionPair) :
    (runDrawLoops p trace).2 =
      runLoop trace postGateMaxSteps (runDrawLoops p trace).1.nextStep
        (runDrawLoops p trace).1.state := rfl

/-! ### Claim C10 -/

/-- Claim C10: in every `SimulationResult` returned by `runSimulation`, the
`totalCollisions` field equals `ballBallCollisions + ballWallCollisions`
exactly. -/
theorem C10_total_is_sum (p : Params) (trace : ℕ → List CollisionPair) :
    (runDraw p trace).totalCollisions =
      (runDraw p trace).ballBallCollisions + (runDraw p trace).ballWallCollisions := rfl

/-! ### Claim C6 -/

/-- Claim C6: across the collision events of one draw, a recorded winner is
never overwritten, and starting from an unset winner the recorded winner is
exactly the non-sensor side of the first pair (in delivery order, across all
events) that involves the exit sensor and whose other side is ball-labeled. -/
theorem C6_first_sensor_touch_wins (events : List (List CollisionPair))
    (s : TrackState) :
    (∀ w, s.winner = some w → (processAll s events).winner = some w) ∧
    (s.winner = none →
      (processAll s events).winner = firstSensorWin events.flatten) :=
  ⟨fun w h => processAll_winner_some events s w h,
   fun h => processAll_winner_none events s h⟩

/-- Witness for C6 at a concrete two-event trace: the first sensor-touching
ball (`ball-0`) is recorded; the later sensor collision with `ball-1` does
not overwrite it. -/
theorem C6_witness :
    (processAll initTrack [[⟨Label.ball 0, Label.exitSensor⟩],
        [⟨Label.ball 1, Label.exitSensor⟩]]).winner =
      firstSensorWin ([[⟨Label.ball 0, Label.exitSensor⟩],
        [⟨Label.ball 1, Label.exitSensor⟩]] : List (List CollisionPair)).flatten ∧
    (processAll initTrack [[⟨Label.ball 0, Label.exitSensor⟩],
        [⟨Label.ball 1, Label.exitSensor⟩]]).winner = some (Label.ball 0) :=
  ⟨(C6_first_sensor_touch_wins _ initTrack).2 rfl, by decide⟩

/-! ### Claim C2 -/

/-- Claim C2: for every draw whose collision trace only mentions bodies of
the built world, `winnerIndex` lies in `[0, numBalls) ∪ {-1}`, and
`winnerIndex = -1` holds iff `winner` is `none`. -/
theorem C2_winnerIndex_range (p : Params) (trace : ℕ → List CollisionPair)
    (hv : validTrace p trace) :
    ((runDraw p trace).winnerIndex = -1 ∨
      (0 ≤ (runDraw p trace).winnerIndex ∧
        (runDraw p trace).winnerIndex < (p.numBalls : ℤ))) ∧
    ((runDraw p trace).winnerIndex = -1 ↔ (runDraw p trace).winner = none) := by
  have hok := runDraw_winnerOk p trace hv
  rcases hok with h | ⟨i, hi, h⟩
  · rw [runDraw_winner, runDraw_winnerIndex, h]
    simp
  · rw [runDraw_winner, runDraw_winnerIndex, h]
    refine ⟨Or.inr ⟨Int.natCast_nonneg i, ?_⟩, ?_⟩
    · show (i : ℤ) < (p.numBalls : ℤ)
      exact_mod_cast hi
    · constructor
      · intro hcontra
        have hi' : (i : ℤ) = -1 := hcontra
        exact absurd hi' (by omega)
      · intro hcontra
        exact absurd hcontra (by simp)

/-- Witness for C2 at the default parameters and the (vacuously valid)
empty trace. -/
theorem C2_witness :
    ((runDraw DEFAULT_PARAMS emptyTrace).winnerIndex = -1 ∨
      (0 ≤ (runDraw DEFAULT_PARAMS emptyTrace).winnerIndex ∧
        (runDraw DEFAULT_PARAMS emptyTrace).winnerIndex <
          (DEFAULT_PARAMS.numBalls : ℤ))) ∧
    ((runDraw DEFAULT_PARAMS emptyTrace).winnerIndex = -1 ↔
      (runDraw DEFAULT_PARAMS emptyTrace).winner = none) :=
  C2_winnerIndex_range DEFAULT_PARAMS emptyTrace
    (fun _ pr hpr => absurd hpr (List.not_mem_nil pr))

/-! ### Claim C3 -/

/-- A complete parameter record with a negative mix duration. -/
def negMixParams : Params := { DEFAULT_PARAMS with mixTime := -1000 }

/-- Counterexample to claim C3 as stated: at the complete parameter record
with `mixTime = -1000` and the empty trace, the draw executes `0 + 900 = 900`
physics steps, while the claimed bound is
`round(-1000/dt) + round(15000/dt) = -60 + 900 = 840`, so the claimed bound
fails (the mixing loop simply runs zero iterations for a negative bound; it
cannot run a negative number of them). -/
theorem C3_counterexample :
    (runDrawLoops negMixParams emptyTrace).1.executed +
      (runDrawLoops negMixParams emptyTrace).2.executed = 900 ∧
    round (negMixParams.mixTime / DT) + round ((15000 : ℚ) / DT) = 840 ∧
    ¬ ((((runDrawLoops negMixParams emptyTrace).1.executed +
          (runDrawLoops negMixParams emptyTrace).2.executed : ℕ) : ℤ) ≤
        round (negMixParams.mixTime / DT) + round ((15000 : ℚ) / DT)) := by
  have hmt : negMixParams.mixTime = -1000 := rfl
  have hmix : mixStepsOf negMixParams = 0 := by
    unfold mixStepsOf
    rw [hmt]
    unfold DT
    have hq : (-1000 : ℚ) / (1000 / 60) = ((-60 : ℤ) : ℚ) := by norm_num
    rw [hq, round_intCast]
    decide
  have hloops : runDrawLoops negMixParams emptyTrace =
      (⟨initTrack, 0, 0⟩, ⟨initTrack, 900, 900⟩) := by
    unfold runDrawLoops
    rw [hmix, postGateMaxSteps_eq]
    dsimp only
    have h0 : runLoop emptyTrace 0 0 initTrack = ⟨initTrack, 0, 0⟩ := rfl
    rw [h0]
    dsimp only
    rw [runLoop_emptyTrace_none 900 0 initTrack rfl]
  have hround : round (negMixParams.mixTime / DT) = -60 := by
    rw [hmt]
    unfold DT
    have hq : (-1000 : ℚ) / (1000 / 60) = ((-60 : ℤ) : ℚ) := by norm_num
    rw [hq, round_intCast]
  refine ⟨?_, ?_, ?_⟩
  · rw [hloops]
    rfl
  · rw [hround, round_post_eq]
    decide
  · rw [hloops, hround, round_post_eq]
    decide

/-- Claim C3 (amended): for every complete parameter record **with a
non-negative mix duration**, the mixing loop executes at most
`round(mixTime/dt)` steps, the selection loop at most `round(15000/dt)`
steps (`dt = 1000/60` ms), and a draw therefore executes at most the sum of
the two caps; `runSimulation` terminates (the embedding is a total
function).  For a negative `mixTime` the mixing loop executes zero steps,
so only the clamped bound `max(round(mixTime/dt), 0) + round(15000/dt)`
holds there (see `C3_counterexample`). -/
theorem C3_step_caps (p : Params) (trace : ℕ → List CollisionPair)
    (hmix : 0 ≤ p.mixTime) :
    ((runDrawLoops p trace).1.executed : ℤ) ≤ round (p.mixTime / DT) ∧
    ((runDrawLoops p trace).2.executed : ℤ) ≤ round ((15000 : ℚ) / DT) ∧
    (((runDrawLoops p trace).1.executed + (runDrawLoops p trace).2.executed : ℕ) : ℤ) ≤
      round (p.mixTime / DT) + round ((15000 : ℚ) / DT) := by
  have hround : 0 ≤ round (p.mixTime / DT) := by
    rw [round_eq]
    refine Int.floor_nonneg.mpr ?_
    have : (0 : ℚ) ≤ p.mixTime / DT := by
      refine div_nonneg hmix ?_
      norm_num [DT]
    linarith
  have h1 : (runDrawLoops p trace).1.executed ≤ mixStepsOf p := by
    rw [runDrawLoops_fst]
    exact runLoop_executed_le trace (mixStepsOf p) 0 initTrack
  have h2 : (runDrawLoops p trace).2.executed ≤ postGateMaxSteps := by
    rw [runDrawLoops_snd]
    exact runLoop_executed_le trace postGateMaxSteps _ _
  have hm : ((mixStepsOf p : ℕ) : ℤ) = round (p.mixTime / DT) := by
    unfold mixStepsOf
    exact Int.toNat_of_nonneg hround
  have hp : ((postGateMaxSteps : ℕ) : ℤ) = round ((15000 : ℚ) / DT) := by
    rw [postGateMaxSteps_eq, round_post_eq]
    rfl
  refine ⟨?_, ?_, ?_⟩
  · rw [← hm]
    exact_mod_cast h1
  · rw [← hp]
    exact_mod_cast h2
  · rw [← hm, ← hp]
    push_cast
    omega

/-- Parameters with a zero-length mixing phase, used as a concrete input. -/
def zeroMixParams : Params := { DEFAULT_PARAMS with mixTime := 0 }

/-- Witness for C3 at concrete parameters and the empty trace. -/
theorem C3_witness :
    ((runDrawLoops zeroMixParams emptyTrace).1.executed : ℤ) ≤
      round (zeroMixParams.mixTime / DT) ∧
    ((runDrawLoops zeroMixParams emptyTrace).2.executed : ℤ) ≤
      round ((15000 : ℚ) / DT) ∧
    (((runDrawLoops zeroMixParams emptyTrace).1.executed +
        (runDrawLoops zeroMixParams emptyTrace).2.executed : ℕ) : ℤ) ≤
      round (zeroMixParams.mixTime / DT) + round ((15000 : ℚ) / DT) :=
  C3_step_caps zeroMixParams emptyTrace (le_refl 0)

/-! ### Claim C1 -/

/-- A trace whose only event consists of two sensor-involving pairs: first
`ball-0` touches the sensor (recording the winner), then `ball-1` touches
the sensor in the same event. -/
def c1Trace : ℕ → List CollisionPair :=
  fun k => if k = 0 then
    [⟨Label.ball 0, Label.exitSensor⟩, ⟨Label.ball 1, Label.exitSensor⟩]
  else []

/-- Counterexample to claim C1 as stated: in a draw whose every delivered
pair involves the exit sensor, the ball-wall counter nevertheless ends at 1:
the sensor pair delivered after the winner was recorded falls through to the
classification tail and increments ball-wall. -/
theorem C1_counterexample :
    (∀ k, ∀ pr ∈ c1Trace k, pr.bodyB.isSensor = true) ∧
    (runDraw DEFAULT_PARAMS c1Trace).ballWallCollisions = 1 := by
  constructor
  · intro k pr hpr
    unfold c1Trace at hpr
    split at hpr
    · simp only [List.mem_cons, List.not_mem_nil, or_false] at hpr
      rcases hpr with rfl | rfl <;> rfl
    · exact absurd hpr (List.not_mem_nil pr)
  · rw [runDraw_ballWall]
    unfold runDrawLoops
    rw [mixStepsOf_default, postGateMaxSteps_eq]
    decide

/-- Claim C1 (amended): a collision pair in which one body is the exit
sensor never increments the ball-wall (or ball-ball) counter **while no
winner has been recorded**; once a winner has been recorded, such a pair is
classified like any other pair, so a sensor pair whose other side is
ball-labeled increments the ball-wall counter. -/
theorem C1_sensor_pair_classification (s : TrackState) (pr : CollisionPair)
    (hs : pr.bodyA.isSensor = true ∨ pr.bodyB.isSensor = true) :
    (s.winner = none →
      (processPair s pr).ballWall = s.ballWall ∧
      (processPair s pr).ballBall = s.ballBall) ∧
    (∀ w, s.winner = some w → (pr.bodyA.isBall || pr.bodyB.isBall) = true →
      (processPair s pr).ballWall = s.ballWall + 1) := by
  constructor
  · intro h
    cases hA : pr.bodyA.isSensor with
    | true =>
      cases hB : pr.bodyB.isBall with
      | true => rw [processPair_none_winA s pr h hA hB]; exact ⟨rfl, rfl⟩
      | false => rw [processPair_none_skipA s pr h hA hB]; exact ⟨rfl, rfl⟩
    | false =>
      have hBs : pr.bodyB.isSensor = true := by
        rcases hs with hs | hs
        · rw [hs] at hA; exact absurd hA (by simp)
        · exact hs
      cases hAb : pr.bodyA.isBall with
      | true => rw [processPair_none_winB s pr h hA hBs hAb]; exact ⟨rfl, rfl⟩
      | false => rw [processPair_none_skipB s pr h hA hBs hAb]; exact ⟨rfl, rfl⟩
  · intro w hw hball
    rw [processPair_some s pr w hw]
    unfold classifyPair
    have hand : (pr.bodyA.isBall && pr.bodyB.isBall) = false := by
      rcases hs with hs | hs
      · rw [Label.isSensor_not_ball hs]; rfl
      · rw [Label.isSensor_not_ball hs, Bool.and_false]
    rw [hand, if_neg (by simp), hball, if_pos rfl]

/-- Witness for the amended C1: a sensor pair with no winner recorded leaves
both counters unchanged. -/
theorem C1_witness :
    (processPair initTrack ⟨Label.ball 0, Label.exitSensor⟩).ballWall =
      initTrack.ballWall ∧
    (processPair initTrack ⟨Label.ball 0, Label.exitSensor⟩).ballBall =
      initTrack.ballBall :=
  (C1_sensor_pair_classification initTrack ⟨Label.ball 0, Label.exitSensor⟩
    (Or.inr rfl)).1 rfl

/-! ### Evaluator (optimizer script, `evaluateConfig`, lines 293-344)

`evaluateConfig(params, numRuns)` runs `numRuns` independent draws; in the
embedding each draw gets its own collision trace, so the evaluator takes the
list of the `N = traces.length` traces. -/

def simResultsOf (p : Params) (traces : List (ℕ → List CollisionPair)) :
    List SimResult :=
  traces.map (runDraw p)

/-- The success test of the tally loop: `result.winnerIndex >= 0`. -/
def isSuccess (r : SimResult) : Bool := decide (0 ≤ r.winnerIndex)

/-- `winCounts[i]++` (in-bounds increment of a dense JS array). -/
def bumpAt (l : List ℕ) (i : ℕ) : List ℕ := l.set i (l.getD i 0 + 1)

/-- The tally loop over the draw results:
`if (result.winnerIndex >= 0) winCounts[result.winnerIndex]++`. -/
def winCountsFold (wc : List ℕ) (results : List SimResult) : List ℕ :=
  results.foldl
    (fun acc r => if 0 ≤ r.winnerIndex then bumpAt acc r.winnerIndex.toNat else acc) wc

/-- `const winCounts = new Array(params.numBalls).fill(0)` then the tally. -/
def winCountsOf (p : Params) (traces : List (ℕ → List CollisionPair)) : List ℕ :=
  winCountsFold (List.replicate p.numBalls 0) (simResultsOf p traces)

def successfulRunsOf (p : Params) (traces : List (ℕ → List CollisionPair)) : ℕ :=
  ((simResultsOf p traces).filter isSuccess).length

def totalCollisionsOf (p : Params) (traces : List (ℕ → List CollisionPair)) : ℕ :=
  ((simResultsOf p traces).map SimResult.totalCollisions).sum

def totalSelectionTimeOf (p : Params) (traces : List (ℕ → List CollisionPair)) : ℚ :=
  (((simResultsOf p traces).filter isSuccess).map SimResult.selectionTimeMs).sum

def successRateOf (p : Params) (traces : List (ℕ → List CollisionPair)) : ℚ :=
  (successfulRunsOf p traces : ℚ) / (traces.length : ℚ)

def avgCollisionsOf (p : Params) (traces : List (ℕ → List CollisionPair)) : ℚ :=
  (totalCollisionsOf p traces : ℚ) / (traces.length : ℚ)

/-- `successfulRuns > 0 ? totalSelectionTime / successfulRuns : Infinity`. -/
def avgSelectionTimeOf (p : Params) (traces : List (ℕ → List CollisionPair)) :
    WithTop ℚ :=
  if 0 < successfulRunsOf p traces then
    ((totalSelectionTimeOf p traces / (successfulRunsOf p traces : ℚ) : ℚ) : WithTop ℚ)
  else ⊤

/-- `const expected = successfulRuns / params.numBalls`. -/
def expectedOf (p : Params) (traces : List (ℕ → List CollisionPair)) : ℚ :=
  (successfulRunsOf p traces : ℚ) / (p.numBalls : ℚ)

/-- The chi-squared accumulation loop of the `successfulRuns > 0` branch:
`chiSquared += (count - expected) ** 2 / Math.max(expected, 0.001)`. -/
def chiSquaredFinOf (p : Params) (traces : List (ℕ → List CollisionPair)) : ℚ :=
  (winCountsOf p traces).foldl
    (fun acc count =>
      acc + ((count : ℚ) - expectedOf p traces) ^ 2 / max (expectedOf p traces) 0.001)
    0

/-- `let chiSquared = Infinity; if (successfulRuns > 0) { chiSquared = 0; … }`. -/
def chiSquaredOf (p : Params) (traces : List (ℕ → List CollisionPair)) : WithTop ℚ :=
  if 0 < successfulRunsOf p traces then ((chiSquaredFinOf p traces : ℚ) : WithTop ℚ)
  else ⊤

/-- `chiSquared / Math.max(params.numBalls - 1, 1)`; a finite value is
divided by the positive denominator, `Infinity` stays `Infinity`. -/
def chiSquaredNormOf (p : Params) (traces : List (ℕ → List CollisionPair)) :
    WithTop ℚ :=
  (chiSquaredOf p traces).map (fun c => c / max ((p.numBalls : ℚ) - 1) 1)

/-- `maxDeviation = Math.max(...winCounts.map(c => Math.abs(c - expected) / expected))`
in the `successfulRuns > 0` branch, else `Infinity`.  (`Math.max` of the
non-empty list of non-negative deviations equals the fold with base 0.) -/
def maxDeviationOf (p : Params) (traces : List (ℕ → List CollisionPair)) :
    WithTop ℚ :=
  if 0 < successfulRunsOf p traces then
    ((((winCountsOf p traces).map
        (fun count => |(count : ℚ) - expectedOf p traces| / expectedOf p traces)).foldl
      max 0 : ℚ) : WithTop ℚ)
  else ⊤

/-- The score (optimizer lines 333-338).  In the `successRate > 0` branch
`chiSquaredNorm` is finite (proved in `C5_score_formula`), and `untop' 0`
extracts that finite value. -/
noncomputable def scoreOf (p : Params) (traces : List (ℕ → List CollisionPair)) : ℝ :=
  if 0 < successRateOf p traces then
    (successRateOf p traces : ℝ) * 100
      - (((chiSquaredNormOf p traces).untop' 0 : ℚ) : ℝ) * 5
      + Real.log ((avgCollisionsOf p traces : ℝ) + 1) * 0.3
  else 0

/-- The record returned by `evaluateConfig` (lines 340-343), plus the
`isDefault` flag the optimizer later attaches to the default entry. -/
structure EvaluationResult where
  params : Params
  successRate : ℚ
  avgCollisions : ℚ
  avgSelectionTime : WithTop ℚ
  chiSquared : WithTop ℚ
  chiSquaredNorm : WithTop ℚ
  maxDeviation : WithTop ℚ
  winCounts : List ℕ
  score : ℝ
  numRuns : ℕ
  isDefault : Bool := false

noncomputable def evaluateConfig (p : Params)
    (traces : List (ℕ → List CollisionPair)) : EvaluationResult where
  params := p
  successRate := successRateOf p traces
  avgCollisions := avgCollisionsOf p traces
  avgSelectionTime := avgSelectionTimeOf p traces
  chiSquared := chiSquaredOf p traces
  chiSquaredNorm := chiSquaredNormOf p traces
  maxDeviation := maxDeviationOf p traces
  winCounts := winCountsOf p traces
  score := scoreOf p traces
  numRuns := traces.length
  isDefault := false

/-! ### Lemmas about the evaluator -/

theorem bumpAt_length (l : List ℕ) (i : ℕ) : (bumpAt l i).length = l.length :=
  List.length_set l i _

theorem bumpAt_sum (l : List ℕ) (i : ℕ) (h : i < l.length) :
    (bumpAt l i).sum = l.sum + 1 := by
  induction l generalizing i with
  | nil => simp at h
  | cons a t ih =>
    cases i with
    | zero => simp [bumpAt]; omega
    | succ j =>
      have hj : j < t.length := by simpa using h
      have : bumpAt (a :: t) (j + 1) = a :: bumpAt t j := by
        simp [bumpAt]
      rw [this, List.sum_cons, List.sum_cons, ih j hj]
      omega

theorem winCountsFold_length (results : List SimResult) (wc : List ℕ) :
    (winCountsFold wc results).length = wc.length := by
  induction results generalizing wc with
  | nil => rfl
  | cons r rest ih =>
    show (winCountsFold (if 0 ≤ r.winnerIndex then bumpAt wc r.winnerIndex.toNat else wc)
        rest).length = wc.length
    split
    · rw [ih, bumpAt_length]
    · exact ih wc

theorem winCountsFold_sum (results : List SimResult) (wc : List ℕ)
    (hidx : ∀ r ∈ results, 0 ≤ r.winnerIndex → r.winnerIndex.toNat < wc.length) :
    (winCountsFold wc results).sum = wc.sum + (results.filter isSuccess).length := by
  induction results generalizing wc with
  | nil => simp [winCountsFold]
  | cons r rest ih =>
    show (winCountsFold (if 0 ≤ r.winnerIndex then bumpAt wc r.winnerIndex.toNat else wc)
        rest).sum = _
    by_cases hr : 0 ≤ r.winnerIndex
    · rw [if_pos hr]
      have hlt : r.winnerIndex.toNat < wc.length :=
        hidx r (List.mem_cons_self r rest) hr
      rw [ih (bumpAt wc r.winnerIndex.toNat)
          (fun q hq hq0 => by rw [bumpAt_length]; exact hidx q (List.mem_cons_of_mem r hq) hq0)]
      rw [bumpAt_sum wc _ hlt]
      have hs : isSuccess r = true := by
        unfold isSuccess
        exact decide_eq_true hr
      rw [List.filter_cons_of_pos hs]
      simp
      omega
    · rw [if_neg hr]
      rw [ih wc (fun q hq hq0 => hidx q (List.mem_cons_of_mem r hq) hq0)]
      have hs : isSuccess r = false := by
        unfold isSuccess
        simpa using hr
      rw [List.filter_cons_of_neg (by simp [hs])]

theorem winCountsFold_cons (wc : List ℕ) (r : SimResult) (rest : List SimResult) :
    winCountsFold wc (r :: rest) =
      winCountsFold (if 0 ≤ r.winnerIndex then bumpAt wc r.winnerIndex.toNat else wc)
        rest := rfl

theorem winCountsFold_filter (results : List SimResult) (wc : List ℕ) :
    winCountsFold wc results = winCountsFold wc (results.filter isSuccess) := by
  induction results generalizing wc with
  | nil => rfl
  | cons r rest ih =>
    by_cases hr : 0 ≤ r.winnerIndex
    · have hs : isSuccess r = true := decide_eq_true hr
      rw [List.filter_cons_of_pos hs, winCountsFold_cons, winCountsFold_cons,
        if_pos hr]
      exact ih (bumpAt wc r.winnerIndex.toNat)
    · have hs : isSuccess r = false := by unfold isSuccess; simpa using hr
      rw [List.filter_cons_of_neg (by simp [hs]), winCountsFold_cons, if_neg hr]
      exact ih wc

/-- The winner index of a draw over a valid trace is below `numBalls`
whenever it is non-negative. -/
theorem runDraw_index_bound (p : Params) (trace : ℕ → List CollisionPair)
    (hv : validTrace p trace) (h : 0 ≤ (runDraw p trace).winnerIndex) :
    (runDraw p trace).winnerIndex.toNat < p.numBalls := by
  have hok := runDraw_winnerOk p trace hv
  rcases hok with hw | ⟨i, hi, hw⟩
  · rw [runDraw_winnerIndex, hw] at h
    exact absurd h (by decide)
  · rw [runDraw_winnerIndex, hw]
    simpa using hi

/-! ### Claim C4 -/

/-- Claim C4: for every complete parameter record and run count `N ≥ 1` (with
valid per-draw traces), the `EvaluationResult` has `winCounts` of length
exactly `numBalls`, the sum of `winCounts` is at most `N`, and timed-out
draws (`winnerIndex = -1`) contribute nothing: the tally over all draws
equals the tally over the successful draws only. -/
theorem C4_winCounts_invariants (p : Params) (traces : List (ℕ → List CollisionPair))
    (hN : 1 ≤ traces.length) (hv : ∀ tr ∈ traces, validTrace p tr) :
    (evaluateConfig p traces).winCounts.length = p.numBalls ∧
    (evaluateConfig p traces).winCounts.sum ≤ traces.length ∧
    (evaluateConfig p traces).winCounts =
      winCountsFold (List.replicate p.numBalls 0)
        ((simResultsOf p traces).filter isSuccess) := by
  have hfield : (evaluateConfig p traces).winCounts = winCountsOf p traces := rfl
  have hidx : ∀ r ∈ simResultsOf p traces, 0 ≤ r.winnerIndex →
      r.winnerIndex.toNat < (List.replicate p.numBalls (0 : ℕ)).length := by
    intro r hr h0
    rw [List.length_replicate]
    obtain ⟨tr, htr, rfl⟩ := List.mem_map.mp hr
    exact runDraw_index_bound p tr (hv tr htr) h0
  refine ⟨?_, ?_, ?_⟩
  · rw [hfield]
    unfold winCountsOf
    rw [winCountsFold_length, List.length_replicate]
  · rw [hfield]
    unfold winCountsOf
    rw [winCountsFold_sum _ _ hidx]
    have hz : (List.replicate p.numBalls (0 : ℕ)).sum = 0 := by simp
    rw [hz, Nat.zero_add]
    calc ((simResultsOf p traces).filter isSuccess).length
        ≤ (simResultsOf p traces).length := List.length_filter_le _ _
      _ = traces.length := List.length_map _ _
  · rw [hfield]
    unfold winCountsOf
    exact winCountsFold_filter _ _

/-- Witness for C4: a single timed-out draw at the default parameters. -/
theorem C4_witness :
    (evaluateConfig DEFAULT_PARAMS [emptyTrace]).winCounts.length =
      DEFAULT_PARAMS.numBalls ∧
    (evaluateConfig DEFAULT_PARAMS [emptyTrace]).winCounts.sum ≤
      ([emptyTrace] : List (ℕ → List CollisionPair)).length ∧
    (evaluateConfig DEFAULT_PARAMS [emptyTrace]).winCounts =
      winCountsFold (List.replicate DEFAULT_PARAMS.numBalls 0)
        ((simResultsOf DEFAULT_PARAMS [emptyTrace]).filter isSuccess) :=
  C4_winCounts_invariants DEFAULT_PARAMS [emptyTrace] (le_refl 1)
    (fun tr htr k pr hpr => by
      have htr' : tr = emptyTrace := List.mem_singleton.mp htr
      rw [htr'] at hpr
      exact absurd hpr (List.not_mem_nil pr))

/-! ### Claim C5 -/

/-- Claim C5: for every `EvaluationResult` computed by `evaluateConfig`,
the score is `0` whenever `successRate = 0`, and whenever `successRate > 0`
the `chiSquaredNorm` is finite and
`score = successRate·100 − chiSquaredNorm·5 + ln(avgCollisions+1)·0.3`
exactly (with `untop' 0` extracting the finite `chiSquaredNorm`). -/
theorem C5_score_formula (p : Params) (traces : List (ℕ → List CollisionPair)) :
    ((evaluateConfig p traces).successRate = 0 → (evaluateConfig p traces).score = 0) ∧
    (0 < (evaluateConfig p traces).successRate →
      (evaluateConfig p traces).chiSquaredNorm ≠ ⊤ ∧
      (evaluateConfig p traces).score =
        ((evaluateConfig p traces).successRate : ℝ) * 100
          - (((evaluateConfig p traces).chiSquaredNorm.untop' 0 : ℚ) : ℝ) * 5
          + Real.log (((evaluateConfig p traces).avgCollisions : ℝ) + 1) * 0.3) := by
  constructor
  · intro h0
    have h0' : successRateOf p traces = 0 := h0
    show scoreOf p traces = 0
    unfold scoreOf
    rw [if_neg (by rw [h0']; exact lt_irrefl 0)]
  · intro hpos
    have hpos' : 0 < successRateOf p traces := hpos
    have hsucc : 0 < successfulRunsOf p traces := by
      by_contra hc
      push_neg at hc
      have h0 : successfulRunsOf p traces = 0 := Nat.le_zero.mp hc
      have hz : successRateOf p traces = 0 := by
        unfold successRateOf
        rw [h0]
        simp
      rw [hz] at hpos'
      exact lt_irrefl 0 hpos'
    have hchi : chiSquaredOf p traces =
        ((chiSquaredFinOf p traces : ℚ) : WithTop ℚ) := if_pos hsucc
    have hnorm : chiSquaredNormOf p traces =
        ((chiSquaredFinOf p traces / max ((p.numBalls : ℚ) - 1) 1 : ℚ) : WithTop ℚ) := by
      unfold chiSquaredNormOf
      rw [hchi]
      rfl
    constructor
    · show chiSquaredNormOf p traces ≠ ⊤
      rw [hnorm]
      exact WithTop.coe_ne_top
    · show scoreOf p traces = _
      unfold scoreOf
      rw [if_pos hpos']
      rfl

/-- Witness for C5: a single timed-out draw has `successRate = 0`, hence
score `0`. -/
theorem C5_witness : (evaluateConfig DEFAULT_PARAMS [emptyTrace]).score = 0 :=
  (C5_score_formula DEFAULT_PARAMS [emptyTrace]).1 (by
    show successRateOf DEFAULT_PARAMS [emptyTrace] = 0
    have hres : simResultsOf DEFAULT_PARAMS [emptyTrace] =
        [runDraw DEFAULT_PARAMS emptyTrace] := rfl
    have hfail : isSuccess (runDraw DEFAULT_PARAMS emptyTrace) = false := by
      unfold isSuccess
      rw [runDraw_emptyTrace]
      rfl
    unfold successRateOf successfulRunsOf
    rw [hres, List.filter_cons_of_neg (by simp [hfail]), List.filter_nil]
    simp)

/-! ### Claim C8 -/

/-- Claim C8: for every caller-supplied override record, the effective
parameter record used for a draw takes, for each key, the override's value
when the key is present and the `DEFAULT_PARAMS` value when it is absent;
every field of the merged record carries a definite value. -/
theorem C8_merge_semantics (o : Overrides) :
    ((mergeParams o).gravityY =
      match o.gravityY with | some v => v | none => DEFAULT_PARAMS.gravityY) ∧
    ((mergeParams o).gravityScale =
      match o.gravityScale with | some v => v | none => DEFAULT_PARAMS.gravityScale) ∧
    ((mergeParams o).numBalls =
      match o.numBalls with | some v => v | none => DEFAULT_PARAMS.numBalls) ∧
    ((mergeParams o).ballRadius =
      match o.ballRadius with | some v => v | none => DEFAULT_PARAMS.ballRadius) ∧
    ((mergeParams o).ballRestitution =
      match o.ballRestitution with | some v => v | none => DEFAULT_PARAMS.ballRestitution) ∧
    ((mergeParams o).ballFriction =
      match o.ballFriction with | some v => v | none => DEFAULT_PARAMS.ballFriction) ∧
    ((mergeParams o).ballFrictionAir =
      match o.ballFrictionAir with | some v => v | none => DEFAULT_PARAMS.ballFrictionAir) ∧
    ((mergeParams o).ballDensity =
      match o.ballDensity with | some v => v | none => DEFAULT_PARAMS.ballDensity) ∧
    ((mergeParams o).wallFriction =
      match o.wallFriction with | some v => v | none => DEFAULT_PARAMS.wallFriction) ∧
    ((mergeParams o).wallRestitution =
      match o.wallRestitution with | some v => v | none => DEFAULT_PARAMS.wallRestitution) ∧
    ((mergeParams o).windForceX =
      match o.windForceX with | some v => v | none => DEFAULT_PARAMS.windForceX) ∧
    ((mergeParams o).windForceY =
      match o.windForceY with | some v => v | none => DEFAULT_PARAMS.windForceY) ∧
    ((mergeParams o).windMaxDistScale =
      match o.windMaxDistScale with | some v => v | none => DEFAULT_PARAMS.windMaxDistScale) ∧
    ((mergeParams o).windSourceAngle =
      match o.windSourceAngle with | some v => v | none => DEFAULT_PARAMS.windSourceAngle) ∧
    ((mergeParams o).windOscFreq =
      match o.windOscFreq with | some v => v | none => DEFAULT_PARAMS.windOscFreq) ∧
    ((mergeParams o).windOscAmp =
      match o.windOscAmp with | some v => v | none => DEFAULT_PARAMS.windOscAmp) ∧
    ((mergeParams o).chaosX =
      match o.chaosX with | some v => v | none => DEFAULT_PARAMS.chaosX) ∧
    ((mergeParams o).chaosY =
      match o.chaosY with | some v => v | none => DEFAULT_PARAMS.chaosY) ∧
    ((mergeParams o).angularNudgeMag =
      match o.angularNudgeMag with | some v => v | none => DEFAULT_PARAMS.angularNudgeMag) ∧
    ((mergeParams o).angularNudgeChance =
      match o.angularNudgeChance with | some v => v | none => DEFAULT_PARAMS.angularNudgeChance) ∧
    ((mergeParams o).mixTime =
      match o.mixTime with | some v => v | none => DEFAULT_PARAMS.mixTime) := by
  refine ⟨?_, ?_, ?_, ?_, ?_, ?_, ?_, ?_, ?_, ?_, ?_, ?_, ?_, ?_, ?_, ?_, ?_, ?_,
    ?_, ?_, ?_⟩
  · cases h : o.gravityY <;> simp [mergeParams, h]
  · cases h : o.gravityScale <;> simp [mergeParams, h]
  · cases h : o.numBalls <;> simp [mergeParams, h]
  · cases h : o.ballRadius <;> simp [mergeParams, h]
  · cases h : o.ballRestitution <;> simp [mergeParams, h]
  · cases h : o.ballFriction <;> simp [mergeParams, h]
  · cases h : o.ballFrictionAir <;> simp [mergeParams, h]
  · cases h : o.ballDensity <;> simp [mergeParams, h]
  · cases h : o.wallFriction <;> simp [mergeParams, h]
  · cases h : o.wallRestitution <;> simp [mergeParams, h]
  · cases h : o.windForceX <;> simp [mergeParams, h]
  · cases h : o.windForceY <;> simp [mergeParams, h]
  · cases h : o.windMaxDistScale <;> simp [mergeParams, h]
  · cases h : o.windSourceAngle <;> simp [mergeParams, h]
  · cases h : o.windOscFreq <;> simp [mergeParams, h]
  · cases h : o.windOscAmp <;> simp [mergeParams, h]
  · cases h : o.chaosX <;> simp [mergeParams, h]
  · cases h : o.chaosY <;> simp [mergeParams, h]
  · cases h : o.angularNudgeMag <;> simp [mergeParams, h]
  · cases h : o.angularNudgeChance <;> simp [mergeParams, h]
  · cases h : o.mixTime <;> simp [mergeParams, h]

/-! ### Claim C9 -/

/-- `PHASE2_TOP = 5` (optimizer line 423). -/
def PHASE2_TOP : ℕ := 5

/-- The Phase-2 filter `r.successRate >= 0.5 && !r.isDefault`
(optimizer line 427). -/
def phase2Keep (r : EvaluationResult) : Bool :=
  decide ((0.5 : ℚ) ≤ r.successRate) && !r.isDefault

/-- `phase2Candidates = phase1Results.filter(...).slice(0, PHASE2_TOP)`
(optimizer lines 426-428); `phase1Results` is already sorted by score
descending. -/
def phase2Candidates (phase1Results : List EvaluationResult) :
    List EvaluationResult :=
  (phase1Results.filter phase2Keep).take PHASE2_TOP

/-- The optimizer's control flow after building the candidate list
(lines 430-433): an empty list reports "no viable configuration" and stops;
otherwise the deep test runs on the candidates. -/
inductive Phase2Outcome where
  | noViable
  | deepTest (candidates : List EvaluationResult)

def runPhase2 (phase1Results : List EvaluationResult) : Phase2Outcome :=
  if (phase2Candidates phase1Results).length = 0 then Phase2Outcome.noViable
  else Phase2Outcome.deepTest (phase2Candidates phase1Results)

/-- Claim C9: the Phase-2 candidate list is exactly the Phase-1 results with
`successRate ≥ 0.5` and the default entry excluded, taken in Phase-1 rank
order (a sublist of the sorted input, still sorted by score descending) and
truncated to the first 5; the optimizer reports the no-viable-configuration
outcome exactly when this list is empty. -/
theorem C9_phase2_selection (l : List EvaluationResult)
    (hs : l.Pairwise (fun a b => b.score ≤ a.score)) :
    phase2Candidates l = (l.filter phase2Keep).take 5 ∧
    (phase2Candidates l).Sublist l ∧
    (phase2Candidates l).length ≤ 5 ∧
    (∀ r ∈ phase2Candidates l, (0.5 : ℚ) ≤ r.successRate ∧ r.isDefault = false) ∧
    (phase2Candidates l).Pairwise (fun a b => b.score ≤ a.score) ∧
    (phase2Candidates l = [] ↔ runPhase2 l = Phase2Outcome.noViable) := by
  have hsub : (phase2Candidates l).Sublist l :=
    ((l.filter phase2Keep).take_sublist PHASE2_TOP).trans (l.filter_sublist)
  refine ⟨rfl, hsub, List.length_take_le _ _, ?_, ?_, ?_⟩
  · intro r hr
    have hr' : r ∈ l.filter phase2Keep :=
      ((l.filter phase2Keep).take_sublist PHASE2_TOP).subset hr
    have hkeep := (List.mem_filter.mp hr').2
    simp only [phase2Keep, Bool.and_eq_true, decide_eq_true_eq,
      Bool.not_eq_true'] at hkeep
    exact hkeep
  · exact hs.sublist hsub
  · constructor
    · intro he
      unfold runPhase2
      rw [if_pos (by rw [he]; rfl)]
    · intro ho
      by_contra hne
      unfold runPhase2 at ho
      rw [if_neg (by
        intro hlen
        exact hne (List.length_eq_zero.mp hlen))] at ho
      exact Phase2Outcome.noConfusion ho

/-- Witness for C9 at a concrete one-entry (hence sorted) Phase-1 list. -/
theorem C9_witness :
    (phase2Candidates [evaluateConfig DEFAULT_PARAMS []]).length ≤ 5 :=
  (C9_phase2_selection [evaluateConfig DEFAULT_PARAMS []] (by simp)).2.2.1

/-! ### Wind field (source lines 6-18, 136-143, 172-206)

The geometry constants and the per-tick wind force.  Positions, distances
and trigonometry live in `ℝ`; the two `Math.random()` samples of a tick are
oracle inputs in `[0, 1)`. -/

noncomputable section

def CANVAS_WIDTH : ℝ := 520
def CANVAS_HEIGHT : ℝ := 500
def WALL : ℝ := 12
def LEFT : ℝ := WALL
def RIGHT : ℝ := CANVAS_WIDTH - WALL
def TOP : ℝ := WALL
def BOTTOM : ℝ := CANVAS_HEIGHT - WALL
def CX : ℝ := CANVAS_WIDTH / 2
def CY : ℝ := CANVAS_HEIGHT / 2
def RX : ℝ := (CANVAS_WIDTH - WALL * 2) / 2
def RY : ℝ := (CANVAS_HEIGHT - WALL * 2) / 2

/-- `windAngleL = Math.PI / 2 + p.windSourceAngle` (line 137). -/
def windAngleL (p : Params) : ℝ := Real.pi / 2 + (p.windSourceAngle : ℝ)

/-- `windAngleR = Math.PI / 2 - p.windSourceAngle` (line 138). -/
def windAngleR (p : Params) : ℝ := Real.pi / 2 - (p.windSourceAngle : ℝ)

/-- Left wind source on the oval perimeter (lines 139-140). -/
def windSrcL (p : Params) : ℝ × ℝ :=
  (CX + RX * Real.cos (windAngleL p), CY + RY * Real.sin (windAngleL p))

/-- Right wind source on the oval perimeter (lines 141-142). -/
def windSrcR (p : Params) : ℝ × ℝ :=
  (CX + RX * Real.cos (windAngleR p), CY + RY * Real.sin (windAngleR p))

/-- `maxDist = Math.sqrt((RIGHT - LEFT) ** 2 + (BOTTOM - TOP) ** 2)`
(line 143): the diagonal of the container's bounding box. -/
def maxDist : ℝ := Real.sqrt ((RIGHT - LEFT) ^ 2 + (BOTTOM - TOP) ^ 2)

/-- Euclidean distance of a ball position from a wind source
(lines 184, 187). -/
def distTo (pos src : ℝ × ℝ) : ℝ :=
  Real.sqrt ((pos.1 - src.1) ^ 2 + (pos.2 - src.2) ^ 2)

/-- `strength = Math.max(0, 1 - dist / (maxDist * p.windMaxDistScale))`
(lines 185, 188). -/
def windStrength (p : Params) (dist : ℝ) : ℝ :=
  max 0 (1 - dist / (maxDist * (p.windMaxDistScale : ℝ)))

def strengthL (p : Params) (pos : ℝ × ℝ) : ℝ :=
  windStrength p (distTo pos (windSrcL p))

def strengthR (p : Params) (pos : ℝ × ℝ) : ℝ :=
  windStrength p (distTo pos (windSrcR p))

/-- `oscPhase = Math.sin(2 * Math.PI * p.windOscFreq * timeSec)` with
`timeSec = simStep * DT / 1000` (lines 174, 177). -/
def oscPhase (p : Params) (simStep : ℕ) : ℝ :=
  Real.sin (2 * Real.pi * (p.windOscFreq : ℝ) * ((simStep : ℝ) * (DT : ℝ) / 1000))

/-- `leftMult = 1 + oscPhase * p.windOscAmp` (line 178). -/
def leftMult (p : Params) (simStep : ℕ) : ℝ :=
  1 + oscPhase p simStep * (p.windOscAmp : ℝ)

/-- `rightMult = 1 - oscPhase * p.windOscAmp` (line 179). -/
def rightMult (p : Params) (simStep : ℕ) : ℝ :=
  1 - oscPhase p simStep * (p.windOscAmp : ℝ)

/-- The force vector passed to `Body.applyForce` for one ball on one tick
(lines 191-200): the two jet contributions plus the per-axis chaos jitter
`(Math.random() - 0.5) * p.chaos{X,Y}`, with `randX`, `randY` the two
`Math.random()` samples. -/
def appliedWindForce (p : Params) (pos : ℝ × ℝ) (simStep : ℕ)
    (randX randY : ℝ) : ℝ × ℝ :=
  ((p.windForceX : ℝ) * strengthL p pos * leftMult p simStep
      - (p.windForceX : ℝ) * strengthR p pos * rightMult p simStep
      + (randX - 0.5) * (p.chaosX : ℝ),
    -(p.windForceY : ℝ) * strengthL p pos * leftMult p simStep
      + -(p.windForceY : ℝ) * strengthR p pos * rightMult p simStep
      + (randY - 0.5) * (p.chaosY : ℝ))

end

/-! ### Claim C7 -/

/-- Claim C7: on every tick, the force applied to a ball before integration
is `Fx = windForceX·(strengthL·leftMult − strengthR·rightMult)` plus jitter
`chaosX·(rand − 1/2)` bounded by `±chaosX/2`, and
`Fy = −windForceY·(strengthL·leftMult + strengthR·rightMult)` plus jitter
bounded by `±chaosY/2`; each strength is `max(0, 1 − dist/(maxDist·scale))`,
never negative, and `maxDist` is the diagonal of the bounding box. -/
theorem C7_wind_force (p : Params) (pos : ℝ × ℝ) (simStep : ℕ)
    (randX randY : ℝ) (hX0 : 0 ≤ randX) (hX1 : randX < 1)
    (hY0 : 0 ≤ randY) (hY1 : randY < 1)
    (hcX : 0 ≤ p.chaosX) (hcY : 0 ≤ p.chaosY) :
    (appliedWindForce p pos simStep randX randY).1 =
      (p.windForceX : ℝ) * (strengthL p pos * leftMult p simStep
        - strengthR p pos * rightMult p simStep) + (randX - 0.5) * (p.chaosX : ℝ) ∧
    (appliedWindForce p pos simStep randX randY).2 =
      -(p.windForceY : ℝ) * (strengthL p pos * leftMult p simStep
        + strengthR p pos * rightMult p simStep) + (randY - 0.5) * (p.chaosY : ℝ) ∧
    0 ≤ strengthL p pos ∧ 0 ≤ strengthR p pos ∧
    |(randX - 0.5) * (p.chaosX : ℝ)| ≤ (p.chaosX : ℝ) / 2 ∧
    |(randY - 0.5) * (p.chaosY : ℝ)| ≤ (p.chaosY : ℝ) / 2 ∧
    maxDist = Real.sqrt ((RIGHT - LEFT) ^ 2 + (BOTTOM - TOP) ^ 2) := by
  have hjitter : ∀ r c : ℝ, 0 ≤ r → r < 1 → 0 ≤ c →
      |(r - 0.5) * c| ≤ c / 2 := by
    intro r c hr0 hr1 hc
    rw [abs_mul]
    have h1 : |r - 0.5| ≤ 1 / 2 := by
      rw [abs_le]
      constructor <;> [linarith; linarith]
    have h2 : |c| = c := abs_of_nonneg hc
    rw [h2]
    calc |r - 0.5| * c ≤ (1 / 2) * c := mul_le_mul_of_nonneg_right h1 hc
      _ = c / 2 := by ring
  have hcX' : (0 : ℝ) ≤ (p.chaosX : ℝ) := by exact_mod_cast hcX
  have hcY' : (0 : ℝ) ≤ (p.chaosY : ℝ) := by exact_mod_cast hcY
  refine ⟨?_, ?_, ?_, ?_, hjitter randX _ hX0 hX1 hcX',
    hjitter randY _ hY0 hY1 hcY', rfl⟩
  · show (p.windForceX : ℝ) * strengthL p pos * leftMult p simStep
        - (p.windForceX : ℝ) * strengthR p pos * rightMult p simStep
        + (randX - 0.5) * (p.chaosX : ℝ) = _
    ring
  · show -(p.windForceY : ℝ) * strengthL p pos * leftMult p simStep
        + -(p.windForceY : ℝ) * strengthR p pos * rightMult p simStep
        + (randY - 0.5) * (p.chaosY : ℝ) = _
    ring
  · show 0 ≤ windStrength p (distTo pos (windSrcL p))
    exact le_max_left 0 _
  · show 0 ≤ windStrength p (distTo pos (windSrcR p))
    exact le_max_left 0 _

/-- Parameters with the chaos jitter switched off, used as a concrete
input. -/
def zeroChaosParams : Params := { DEFAULT_PARAMS with chaosX := 0, chaosY := 0 }

/-- Witness for C7 at concrete inputs: the jet strengths are non-negative. -/
theorem C7_witness :
    0 ≤ strengthL zeroChaosParams ((0 : ℝ), (0 : ℝ)) ∧
    0 ≤ strengthR zeroChaosParams ((0 : ℝ), (0 : ℝ)) :=
  ⟨(C7_wind_force zeroChaosParams ((0 : ℝ), (0 : ℝ)) 0 0 0 (le_refl 0) zero_lt_one
      (le_refl 0) zero_lt_one (le_refl 0) (le_refl 0)).2.2.1,
    (C7_wind_force zeroChaosParams ((0 : ℝ), (0 : ℝ)) 0 0 0 (le_refl 0) zero_lt_one
      (le_refl 0) zero_lt_one (le_refl 0) (le_refl 0)).2.2.2.1⟩

end TeamLottery
